import Mathlib

/-!
Verification of the document-intelligence orchestration core.

Shallow embedding of the OCR + LLM orchestration logic of the
document-intelligence HTTP gateway, together with theorems settling the
behavioural claims about it.

The embedding translates the TypeScript sources:

* `src/services/dual-ocr.service.ts` (`DualOCRService`): the dual-parallel
  strategy — Tesseract OCR and vision-model OCR run in parallel via
  `Promise.allSettled`, their texts merged by `combineOCRResults`, the merge
  fed to a text model.
* `src/services/llm.service.ts` (`LLMService.analyzeText`).
* `src/services/hybrid.service.ts` / `magic-ocr.service` image
  preconditioning (the `sharp` resize call).
* The PDF rasterization step of `OCRService.extractTextFromPDF` with its
  temporary-directory lifecycle.
* The error-classification `catch` blocks of `VisionService.analyzeImage`
  and `DualOCRService.analyzeImage`.

External engines (Tesseract, the Ollama HTTP backend, `pdftocairo`) are
modelled as oracle parameters: each embedded operation takes the outcome of
every external call as an explicit argument, so the embedded function is the
deterministic remainder of the source function.  Wall-clock timing fields
(`timeSeconds`) are not modelled; no claim depends on them.
-/

namespace DocIntel

/-! ## JavaScript string trimming

The sources use JavaScript `String.prototype.trim`, which removes leading
and trailing whitespace.  We model it over `List Char` with the common
ECMAScript whitespace characters (space, tab, LF, CR, VT, FF, NBSP). -/

def isJsWhitespace (c : Char) : Bool :=
  c = ' ' || c = '\t' || c = '\n' || c = '\x0d' || c = '\x0b' || c = '\x0c' || c = '\u00A0'

def jsTrimLeftL : List Char → List Char
  | [] => []
  | c :: cs => if isJsWhitespace c then jsTrimLeftL cs else c :: cs

def jsTrimRightL (l : List Char) : List Char :=
  (jsTrimLeftL l.reverse).reverse

def jsTrimL (l : List Char) : List Char :=
  jsTrimRightL (jsTrimLeftL l)

/-- Model of JavaScript `s.trim()`. -/
def jsTrim (s : String) : String :=
  ⟨jsTrimL s.data⟩

theorem jsTrimLeftL_idem (l : List Char) :
    jsTrimLeftL (jsTrimLeftL l) = jsTrimLeftL l := by
  induction l with
  | nil => rfl
  | cons c cs ih =>
    by_cases h : isJsWhitespace c
    · simp [jsTrimLeftL, h, ih]
    · simp [jsTrimLeftL, h]

theorem jsTrimLeftL_suffix (l : List Char) : jsTrimLeftL l <:+ l := by
  induction l with
  | nil => exact List.suffix_rfl
  | cons c cs ih =>
    by_cases h : isJsWhitespace c
    · simp only [jsTrimLeftL, h, if_true]
      exact ih.trans (List.suffix_cons c cs)
    · simp [jsTrimLeftL, h]

theorem jsTrimLeftL_head_not_ws (l : List Char) :
    jsTrimLeftL l = [] ∨
      ∃ c cs, jsTrimLeftL l = c :: cs ∧ isJsWhitespace c = false := by
  induction l with
  | nil => exact Or.inl rfl
  | cons c cs ih =>
    by_cases h : isJsWhitespace c
    · simpa [jsTrimLeftL, h] using ih
    · exact Or.inr ⟨c, cs, by simp [jsTrimLeftL, h], by simpa using h⟩

/-- A left-trimmed list stays fixed under left trimming of any prefix
containing its head; in particular left trimming is the identity on lists
whose head is not whitespace. -/
theorem jsTrimLeftL_eq_self_of_head (c : Char) (cs : List Char)
    (h : isJsWhitespace c = false) : jsTrimLeftL (c :: cs) = c :: cs := by
  simp [jsTrimLeftL, h]

theorem jsTrimLeftL_prefix_fixed (x p : List Char)
    (hx : jsTrimLeftL x = x) (hp : p <+: x) : jsTrimLeftL p = p := by
  cases p with
  | nil => rfl
  | cons a p' =>
    cases x with
    | nil => exact absurd (List.eq_nil_of_prefix_nil hp) (by simp)
    | cons b x' =>
      have hab : a = b := by
        obtain ⟨t, ht⟩ := hp
        exact (List.cons.injEq a (p' ++ t) b x').mp ht |>.1
      subst hab
      have hb : isJsWhitespace a = false := by
        by_cases h : isJsWhitespace a
        · exfalso
          have h1 : jsTrimLeftL (a :: x') = jsTrimLeftL x' := by
            simp [jsTrimLeftL, h]
          have h2 : (jsTrimLeftL x').length ≤ x'.length :=
            (jsTrimLeftL_suffix x').length_le
          rw [hx] at h1
          have : (a :: x').length ≤ x'.length := h1 ▸ h2
          simp at this
        · simpa using h
      exact jsTrimLeftL_eq_self_of_head a p' hb

theorem jsTrimRightL_pre (l : List Char) : jsTrimRightL l <+: l := by
  have h := jsTrimLeftL_suffix l.reverse
  have := List.reverse_prefix.mpr h
  simpa [jsTrimRightL] using this

theorem jsTrimRightL_idem (l : List Char) :
    jsTrimRightL (jsTrimRightL l) = jsTrimRightL l := by
  simp [jsTrimRightL, jsTrimLeftL_idem]

theorem jsTrimL_idem (l : List Char) : jsTrimL (jsTrimL l) = jsTrimL l := by
  unfold jsTrimL
  have h1 : jsTrimLeftL (jsTrimRightL (jsTrimLeftL l))
      = jsTrimRightL (jsTrimLeftL l) :=
    jsTrimLeftL_prefix_fixed (jsTrimLeftL l) _
      (jsTrimLeftL_idem l) (jsTrimRightL_pre (jsTrimLeftL l))
  rw [h1, jsTrimRightL_idem]

/-- JavaScript trim is idempotent: a trimmed string equals its own trim. -/
theorem jsTrim_idem (s : String) : jsTrim (jsTrim s) = jsTrim s := by
  simp [jsTrim, jsTrimL_idem]

/-! ## Substring search (for label-occurrence statements) -/

def isPrefixPat : List Char → List Char → Bool
  | [], _ => true
  | _ :: _, [] => false
  | p :: ps, c :: cs => p == c && isPrefixPat ps cs

def containsSubL (pat : List Char) : List Char → Bool
  | [] => isPrefixPat pat []
  | c :: cs => isPrefixPat pat (c :: cs) || containsSubL pat cs

/-- `containsSubstr s pat` holds when `pat` occurs contiguously in `s`. -/
def containsSubstr (s pat : String) : Bool :=
  containsSubL pat.data s.data

/-! ## `Promise.allSettled` outcomes

`DualOCRService.analyzeImage` runs its two extraction branches with
`Promise.allSettled`, so each branch resolves to a settled outcome:
`fulfilled` with the branch value, or `rejected` with a reason. -/

inductive Settled where
  | fulfilled (value : String)
  | rejected (reason : String)
deriving DecidableEq, Repr

/-- The text the orchestrator extracts from one settled branch
(`dual-ocr.service.ts` lines 48–72): the fulfilled value, or the empty
string when the branch rejected. -/
def extractText : Settled → String
  | .fulfilled v => v
  | .rejected _ => ""

/-! ## Branch adapters of the dual pipeline -/

/-- `DualOCRService.runTesseractOCR`: given the text produced by
`Tesseract.recognize` (the engine call is the oracle argument), the adapter
returns `text.trim()`.  It performs no emptiness check. -/
def runTesseractOCR (engineText : String) : String :=
  jsTrim engineText

/-- `DualOCRService.runVisionOCR`: given the optional `response` field of
the backend HTTP reply, returns `response.data.response.trim()` when the
field is present and truthy, and the empty string otherwise.  It performs
no emptiness check. -/
def runVisionOCR (responseField : Option String) : String :=
  match responseField with
  | some r => jsTrim r
  | none => ""

/-- One branch as seen by `Promise.allSettled`: the engine either throws
(the branch rejects with that reason) or returns text (the branch fulfills
with the adapter output). -/
def tesseractBranch (engine : Except String String) : Settled :=
  match engine with
  | .error reason => .rejected reason
  | .ok text => .fulfilled (runTesseractOCR text)

/-- The vision branch: the HTTP call either throws (timeout, 404, transport
error — the branch rejects) or yields a reply whose optional `response`
field the adapter trims. -/
def visionBranch (backend : Except String (Option String)) : Settled :=
  match backend with
  | .error reason => .rejected reason
  | .ok responseField => .fulfilled (runVisionOCR responseField)

/-! ## The merge policy -/

/-- `DualOCRService.combineOCRResults`, translated with JavaScript
truthiness (the empty string is falsy). -/
def combineOCRResults (tesseractText visionText : String) : String :=
  if tesseractText = "" ∧ visionText ≠ "" then visionText
  else if tesseractText ≠ "" ∧ visionText = "" then tesseractText
  else
    "=== PRIMARY OCR (Tesseract) ===\n" ++ tesseractText ++
      "\n\n=== SUPPLEMENTARY OCR (Vision Model) ===\n" ++ visionText

/-! ## The orchestration after the parallel phase -/

/-- Default analysis prompt used when the caller passes none
(`finalPrompt` in `dual-ocr.service.ts`). -/
def defaultAnalysisPrompt : String :=
  "Analyze the following document text and extract key information as structured JSON. Return only valid JSON without markdown formatting."

/-- `analysisPrompt || default` with JavaScript truthiness. -/
def finalPrompt (analysisPrompt : Option String) : String :=
  match analysisPrompt with
  | none => defaultAnalysisPrompt
  | some p => if p = "" then defaultAnalysisPrompt else p

/-- The fixed block the orchestrator inserts between the caller prompt and
the combined text (the template literal in `dual-ocr.service.ts`
lines 90–97). -/
def dualContextBlock : String :=
  "\n\nIMPORTANT: The text below comes from TWO different OCR methods applied to the SAME document:\n1. Tesseract OCR (fast, may have typos/formatting issues)\n2. Vision Model OCR (slower, better structured)\n\nBoth are reading the SAME document. Cross-reference both outputs to extract the most accurate information.\nWhen there are discrepancies, prefer the cleaner, more structured output.\n\n"

/-- The contextual prompt sent to the text model. -/
def buildContextualPrompt (analysisPrompt : Option String) (combinedText : String) :
    String :=
  finalPrompt analysisPrompt ++ dualContextBlock ++ combinedText

/-- Result of one dual-parallel run: the orchestration outcome, plus the
list of prompts actually sent to the text-model adapter (so call counts are
part of the model). -/
structure DualTrace where
  result : Except String String
  llmPrompts : List String
deriving Repr

/-- `DualOCRService.analyzeImage` after the parallel phase: takes the two
settled branch outcomes and the text-model backend oracle (`llm` maps the
prompt to the optional `response` field of the HTTP reply), and mirrors the
source control flow: extract each branch text, merge, fail when the merge
is empty (the error message is re-wrapped by the enclosing `catch`),
otherwise call the text model once and fail when the trimmed analysis is
empty. -/
def analyzeImageDual (tesseractResult visionResult : Settled)
    (analysisPrompt : Option String) (llm : String → Option String) :
    DualTrace :=
  let tesseractText := extractText tesseractResult
  let visionText := extractText visionResult
  let combinedText := combineOCRResults tesseractText visionText
  if combinedText = "" then
    { result := .error
        "Failed to process with dual OCR: Both OCR methods failed to extract any text"
      llmPrompts := [] }
  else
    let contextualPrompt := buildContextualPrompt analysisPrompt combinedText
    let analysis :=
      match llm contextualPrompt with
      | some r => jsTrim r
      | none => ""
    if analysis = "" then
      { result := .error
          "Failed to process with dual OCR: Text model returned empty analysis"
        llmPrompts := [contextualPrompt] }
    else
      { result := .ok analysis, llmPrompts := [contextualPrompt] }

/-! ## `LLMService.analyzeText` -/

/-- `LLMService.analyzeText`: concatenates prompt and text (prompt first,
blank line between), sends it to the backend (`llm` oracle = the optional
`response` field of the reply), trims, and fails on an empty summary. -/
def analyzeText (text prompt : String) (llm : String → Option String) :
    Except String String :=
  let fullPrompt := prompt ++ "\n\n" ++ text
  let summary :=
    match llm fullPrompt with
    | some r => jsTrim r
    | none => ""
  if summary = "" then .error "Empty analysis received from Ollama"
  else .ok summary

/-! ## Image preconditioning (`hybrid.service.ts`, `magic-ocr.service`)

Both services call
`sharp(buf).resize(1024, null, { fit: inside, withoutEnlargement: true }).jpeg({ quality: 75 })`.
We model the dimension semantics of that `sharp` call per the documented
behaviour of the library: a `null` height means the height is auto-scaled
from the width preserving the aspect ratio (the `fit` option only applies
when both target dimensions are given), and `withoutEnlargement` makes the
call the identity when the source width is already within the target.
`sharp` rounds the auto-scaled dimension to the nearest integer. -/

structure Dimensions where
  width : Nat
  height : Nat
deriving DecidableEq, Repr

/-- `resize(targetWidth, null, { fit: inside, withoutEnlargement: true })`. -/
def sharpResizeWidthAuto (targetWidth : Nat) (d : Dimensions) : Dimensions :=
  if d.width ≤ targetWidth then d
  else
    { width := targetWidth
      height := (d.height * targetWidth + d.width / 2) / d.width }

/-- Fixed JPEG re-encoding quality used by both services. -/
def jpegQuality : Nat := 75

/-- The preconditioning step: output dimensions and JPEG quality of the
optimized image. -/
def optimizeImage (d : Dimensions) : Dimensions × Nat :=
  (sharpResizeWidthAuto 1024 d, jpegQuality)

/-! ## Error classification `catch` blocks

Axios reports a timed-out request with error code `ECONNABORTED` and an
HTTP error with `error.response.status`; the `catch` blocks of
`VisionService.analyzeImage` (and `DualOCRService.analyzeImage`) map those
signals to distinct thrown messages. -/

structure AxiosErrorInfo where
  isAxiosErr : Bool
  code : Option String
  status : Option Nat
  message : String

def visionTimeoutMessage : String :=
  "Vision model request timed out - try a smaller image or increase timeout"

def visionModelNotFoundMessage (visionModel : String) : String :=
  "Vision model \x27" ++ visionModel ++
    "\x27 not found - please pull it with \x27ollama pull " ++ visionModel ++ "\x27"

def visionBackendErrorMessage (msg : String) : String :=
  "Failed to analyze image with vision model: " ++ msg

/-- The `catch` block of `VisionService.analyzeImage` (part of the
vision-model adapter): timeout check first, then the 404 model-not-found
check, else the generic wrap of the underlying message. -/
def visionCatchError (visionModel : String) (e : AxiosErrorInfo) : String :=
  if e.isAxiosErr ∧ e.code = some "ECONNABORTED" then visionTimeoutMessage
  else if e.isAxiosErr ∧ e.status = some 404 then
    visionModelNotFoundMessage visionModel
  else visionBackendErrorMessage e.message

def dualTimeoutMessage : String :=
  "Dual OCR processing request timed out"

def dualModelNotFoundMessage : String :=
  "Model not found - ensure both vision and text models are available"

def dualGenericMessage (msg : String) : String :=
  "Failed to process with dual OCR: " ++ msg

/-- The `catch` block of `DualOCRService.analyzeImage`. -/
def dualCatchError (e : AxiosErrorInfo) : String :=
  if e.isAxiosErr ∧ e.code = some "ECONNABORTED" then dualTimeoutMessage
  else if e.isAxiosErr ∧ e.status = some 404 then dualModelNotFoundMessage
  else dualGenericMessage e.message

/-! ## PDF rasterization and the temporary scratch directory

`OCRService.extractTextFromPDF` creates a per-request temporary directory
(`mkdtemp`), writes the PDF there, runs `pdftocairo`, reads the PNG back,
runs Tesseract, and removes the directory in a `finally` block on every
exit path.  We model the filesystem as the multiset of live temporary
directories (a list of identifiers) and thread it through the translated
control flow; every external call is an oracle argument. -/

/-- Outcomes of the external calls made inside the `try` body. -/
structure PDFOracles where
  /-- `pdftocairo` + reading the PNG back: `.ok` with the page image, or
  `.error` with the failure reason. -/
  raster : Except String Unit
  /-- `Tesseract.recognize` on the page image: `.ok` with the recognized
  text, or `.error` when the engine throws. -/
  ocr : Except String String

/-- The `try` body of `extractTextFromPDF`, after the temporary directory
exists: rasterize, OCR, guard against empty text, return trimmed text.
Thrown errors are re-wrapped by the `catch` with the
`Failed to extract text from PDF:` prefix. -/
def extractPDFBody (o : PDFOracles) : Except String String :=
  match o.raster with
  | .error e => .error ("Failed to extract text from PDF: " ++ e)
  | .ok _ =>
    match o.ocr with
    | .error e => .error ("Failed to extract text from PDF: " ++ e)
    | .ok text =>
      if text = "" ∨ jsTrim text = "" then
        .error "Failed to extract text from PDF: No text extracted from PDF image"
      else .ok (jsTrim text)

/-- `OCRService.extractTextFromPDF`: takes the oracles and the list of
temporary directories alive before the call (`dirId` is the fresh name
`mkdtemp` returns), and produces the result together with the directories
alive after the call.  The `finally` block removes the scratch directory on
every exit path. -/
def extractTextFromPDF (o : PDFOracles) (dirId : Nat) (fs : List Nat) :
    Except String String × List Nat :=
  let fsCreated := dirId :: fs
  let result := extractPDFBody o
  (result, fsCreated.erase dirId)

/-! ## The dual-OCR controller (`DocumentVLController.analyzeDocument`)

The controller validates the upload, rasterizes a PDF inside a freshly
created scratch directory, hands the image to the dual-OCR service, and
removes the scratch directory in a `finally` block (when one was created). -/

inductive UploadKind where
  | missing
  | pdf
  | image
  | unsupported
deriving DecidableEq, Repr

inductive ControllerOutcome where
  | badRequest (code : String)
  | success (analysis : String)
  | errored (message : String)
deriving Repr

/-- `DocumentVLController.analyzeDocument`: the PDF path creates the
scratch directory before rasterizing and removes it on every exit path;
the image path uses the upload directly; missing or unsupported uploads
answer 400 before any directory is created.  Failures of rasterization or
of the downstream dual-OCR service flow to `next(error)` (`errored`). -/
def analyzeDocumentVL (kind : UploadKind) (raster : Except String Unit)
    (tess vis : Settled) (prompt : Option String) (llm : String → Option String)
    (dirId : Nat) (fs : List Nat) : ControllerOutcome × List Nat :=
  match kind with
  | .missing => (.badRequest "MISSING_FILE", fs)
  | .unsupported => (.badRequest "UNSUPPORTED_FILE_TYPE", fs)
  | .image =>
    match (analyzeImageDual tess vis prompt llm).result with
    | .ok analysis => (.success analysis, fs)
    | .error e => (.errored e, fs)
  | .pdf =>
    let fsCreated := dirId :: fs
    let outcome : ControllerOutcome :=
      match raster with
      | .error e => .errored e
      | .ok _ =>
        match (analyzeImageDual tess vis prompt llm).result with
        | .ok analysis => .success analysis
        | .error e => .errored e
    (outcome, fsCreated.erase dirId)

/-! ## The `Promise.allSettled` join barrier

`DualOCRService.analyzeImage` starts both branches and suspends on
`await Promise.allSettled([...])`.  We model this with a small-step machine:
each branch is an independent task that runs for some number of steps and
then settles with its predetermined outcome (the branches share no state,
so the outcome cannot depend on the sibling); the join transition fires
only once both tasks are settled, collecting both outcomes. -/

inductive TaskState where
  | pending (stepsLeft : Nat) (outcome : Settled)
  | settled (outcome : Settled)
deriving DecidableEq, Repr

structure AllSettledState where
  tess : TaskState
  vis : TaskState
  joined : Option (Settled × Settled)
deriving DecidableEq, Repr

/-- The initial state: both branches started, nothing settled, no join. -/
def allSettledInit (n1 n2 : Nat) (o1 o2 : Settled) : AllSettledState :=
  { tess := .pending n1 o1, vis := .pending n2 o2, joined := none }

/-- One scheduler step: either branch makes progress or settles
(independently of the sibling and of the sibling outcome — including when
the sibling has already rejected), and the continuation resumes exactly
when both branches have settled, receiving both outcomes. -/
inductive DualStep : AllSettledState → AllSettledState → Prop where
  | workTess (n : Nat) (o : Settled) (v : TaskState) (j : Option (Settled × Settled)) :
      DualStep ⟨.pending (n + 1) o, v, j⟩ ⟨.pending n o, v, j⟩
  | settleTess (o : Settled) (v : TaskState) (j : Option (Settled × Settled)) :
      DualStep ⟨.pending 0 o, v, j⟩ ⟨.settled o, v, j⟩
  | workVis (t : TaskState) (n : Nat) (o : Settled) (j : Option (Settled × Settled)) :
      DualStep ⟨t, .pending (n + 1) o, j⟩ ⟨t, .pending n o, j⟩
  | settleVis (t : TaskState) (o : Settled) (j : Option (Settled × Settled)) :
      DualStep ⟨t, .pending 0 o, j⟩ ⟨t, .settled o, j⟩
  | join (o1 o2 : Settled) :
      DualStep ⟨.settled o1, .settled o2, none⟩ ⟨.settled o1, .settled o2, some (o1, o2)⟩

/-- Reachability of the machine. -/
def DualReach := Relation.ReflTransGen DualStep

/-! ## Helper lemmas about the merge and the orchestration -/

theorem combine_left (t : String) (ht : t ≠ "") : combineOCRResults t "" = t := by
  simp [combineOCRResults, ht]

theorem combine_right (v : String) (hv : v ≠ "") : combineOCRResults "" v = v := by
  simp [combineOCRResults, hv]

theorem analyzeImageDual_llmPrompts (tess vis : Settled) (p : Option String)
    (llm : String → Option String)
    (h : combineOCRResults (extractText tess) (extractText vis) ≠ "") :
    (analyzeImageDual tess vis p llm).llmPrompts
      = [buildContextualPrompt p
          (combineOCRResults (extractText tess) (extractText vis))] := by
  unfold analyzeImageDual
  simp only [if_neg h]
  split <;> rfl

/-- The orchestration depends on the two settled branch outcomes only
through the text extracted from them; in particular a rejected branch
enters only as the empty string, never through its rejection reason. -/
theorem analyzeImageDual_eq_of_extract (t1 v1 t2 v2 : Settled)
    (p : Option String) (llm : String → Option String)
    (h1 : extractText t1 = extractText t2)
    (h2 : extractText v1 = extractText v2) :
    analyzeImageDual t1 v1 p llm = analyzeImageDual t2 v2 p llm := by
  unfold analyzeImageDual
  rw [h1, h2]

/-! ## Claim theorems -/

/-- **C1** (code bug).  When both extraction branches fail, the spec
requires the orchestration to fail with `BothExtractionMethodsFailed`
without invoking the text model.  The code intends the same — it guards
with `if (!combinedText) throw new Error("Both OCR methods failed …")` —
but `combineOCRResults` applied to two empty texts falls through to the
both-succeeded branch and returns the non-empty label skeleton, so the
guard never fires: the run below has both branches rejected, yet the text
model is invoked once on label-only content and the orchestration
succeeds. -/
theorem dual_bothFailed_reaches_text_model :
    combineOCRResults "" ""
        = "=== PRIMARY OCR (Tesseract) ===\n\n\n=== SUPPLEMENTARY OCR (Vision Model) ===\n"
    ∧ combineOCRResults "" "" ≠ ""
    ∧ (analyzeImageDual (.rejected "Tesseract failed")
          (.rejected "Vision request timed out") none
          (fun _ => some "model output")).llmPrompts.length = 1
    ∧ (analyzeImageDual (.rejected "Tesseract failed")
          (.rejected "Vision request timed out") none
          (fun _ => some "model output")).result = .ok "model output" :=
  ⟨rfl, by decide, rfl, rfl⟩

/-- **C2** (confirmed).  When both branches produce non-empty text, the
combined text is the structured concatenation with the Tesseract text first
under the primary label and the vision text second under the supplementary
label, both verbatim — nothing dropped, reordered, truncated or
deduplicated. -/
theorem dual_combine_both_nonempty_verbatim (t v : String)
    (ht : t ≠ "") (hv : v ≠ "") :
    combineOCRResults t v
      = "=== PRIMARY OCR (Tesseract) ===\n" ++ t ++
          "\n\n=== SUPPLEMENTARY OCR (Vision Model) ===\n" ++ v := by
  simp [combineOCRResults, ht, hv]

theorem dual_combine_both_nonempty_verbatim_witness :
    combineOCRResults "INVOICE #123" "Invoice Number 123"
      = "=== PRIMARY OCR (Tesseract) ===\n" ++ "INVOICE #123" ++
          "\n\n=== SUPPLEMENTARY OCR (Vision Model) ===\n" ++ "Invoice Number 123" :=
  dual_combine_both_nonempty_verbatim "INVOICE #123" "Invoice Number 123"
    (by decide) (by decide)

/-- **C3** (confirmed).  When exactly one branch yields non-empty text
(the other rejected, or fulfilled with empty text), the orchestration
proceeds: the single prompt sent to the text model is the caller
instruction, the fixed context block, and the surviving text verbatim; the
supplementary label does not occur in the fixed context block the
orchestrator adds; and the whole run is invariant under replacing the
failing branch outcome (in particular, its rejection reason cannot appear
in the final result). -/
theorem dual_single_survivor_verbatim (t : String) (failed : Settled)
    (p : Option String) (llm : String → Option String)
    (ht : t ≠ "") (hf : extractText failed = "") :
    (analyzeImageDual (.fulfilled t) failed p llm).llmPrompts
        = [finalPrompt p ++ dualContextBlock ++ t]
    ∧ (analyzeImageDual failed (.fulfilled t) p llm).llmPrompts
        = [finalPrompt p ++ dualContextBlock ++ t]
    ∧ containsSubstr dualContextBlock "SUPPLEMENTARY" = false
    ∧ (∀ failed2, extractText failed2 = "" →
        analyzeImageDual (.fulfilled t) failed p llm
          = analyzeImageDual (.fulfilled t) failed2 p llm
        ∧ analyzeImageDual failed (.fulfilled t) p llm
          = analyzeImageDual failed2 (.fulfilled t) p llm) := by
  have hc1 : combineOCRResults (extractText (.fulfilled t)) (extractText failed)
      = t := by
    rw [hf]; exact combine_left t ht
  have hc2 : combineOCRResults (extractText failed) (extractText (.fulfilled t))
      = t := by
    rw [hf]; exact combine_right t ht
  refine ⟨?_, ?_, by set_option maxRecDepth 8000 in decide, ?_⟩
  · rw [analyzeImageDual_llmPrompts _ _ _ _ (fun hx => ht (hc1.symm.trans hx)), hc1]
    rfl
  · rw [analyzeImageDual_llmPrompts _ _ _ _ (fun hx => ht (hc2.symm.trans hx)), hc2]
    rfl
  · intro failed2 hf2
    exact ⟨analyzeImageDual_eq_of_extract _ _ _ _ p llm rfl (hf.trans hf2.symm),
           analyzeImageDual_eq_of_extract _ _ _ _ p llm (hf.trans hf2.symm) rfl⟩

theorem dual_single_survivor_verbatim_witness :
    (analyzeImageDual (.fulfilled "INVOICE #123") (.fulfilled "") none
        (fun _ => some "ok")).llmPrompts
      = [finalPrompt none ++ dualContextBlock ++ "INVOICE #123"]
    ∧ analyzeImageDual (.fulfilled "INVOICE #123") (.fulfilled "") none
        (fun _ => some "ok")
      = analyzeImageDual (.fulfilled "INVOICE #123") (.rejected "vision timeout")
        none (fun _ => some "ok") := by
  have h := dual_single_survivor_verbatim "INVOICE #123" (.fulfilled "") none
    (fun _ => some "ok") (by decide) rfl
  exact ⟨h.1, (h.2.2.2 (.rejected "vision timeout") rfl).1⟩

/-- **C4: counterexample.**  The claim states that a dual-pipeline branch
adapter invocation whose engine returns empty or whitespace-only text fails
rather than succeeding with empty text.  On the code, both branch adapters
settle as `fulfilled` with the empty string in that situation — a success
with empty text, so the claim as stated is false. -/
theorem branch_empty_text_counterexample :
    tesseractBranch (.ok "   ") = .fulfilled ""
    ∧ visionBranch (.ok (some " \n ")) = .fulfilled ""
    ∧ visionBranch (.ok none) = .fulfilled "" := by
  decide

/-- **C4 as amended** (the dual-pipeline branch adapters succeed with empty
text when the engine output is empty or whitespace-only after trimming;
the empty text is treated as a failed branch only later, by the merge
step, which then uses the sibling non-empty text alone). -/
theorem branch_empty_text_fulfills_amended (engineText visionResp : String)
    (h1 : jsTrim engineText = "") (h2 : jsTrim visionResp = "") :
    tesseractBranch (.ok engineText) = .fulfilled ""
    ∧ visionBranch (.ok (some visionResp)) = .fulfilled ""
    ∧ visionBranch (.ok none) = .fulfilled ""
    ∧ (∀ v, v ≠ "" →
        combineOCRResults (extractText (tesseractBranch (.ok engineText))) v = v)
    ∧ (∀ t, t ≠ "" →
        combineOCRResults t (extractText (visionBranch (.ok (some visionResp)))) = t) := by
  have e1 : tesseractBranch (.ok engineText) = .fulfilled "" := by
    simp [tesseractBranch, runTesseractOCR, h1]
  have e2 : visionBranch (.ok (some visionResp)) = .fulfilled "" := by
    simp [visionBranch, runVisionOCR, h2]
  refine ⟨e1, e2, rfl, ?_, ?_⟩
  · intro v hv
    rw [e1]
    exact combine_right v hv
  · intro t ht
    rw [e2]
    exact combine_left t ht

theorem branch_empty_text_fulfills_amended_witness :
    tesseractBranch (.ok "  ") = .fulfilled ""
    ∧ combineOCRResults (extractText (tesseractBranch (.ok "  "))) "INVOICE"
        = "INVOICE" := by
  have h := branch_empty_text_fulfills_amended "  " "\n" (by decide) (by decide)
  exact ⟨h.1, h.2.2.2.1 "INVOICE" (by decide)⟩

/-- **C5: counterexample.**  The claim states the preconditioned image has
longer dimension at most 1024 px.  The `sharp` call passes `1024` as the
target *width* with a `null` height, so only the width is constrained: a
500×3000 portrait image is already within the width bound and is returned
unchanged (`withoutEnlargement`), with longer dimension 3000 > 1024. -/
theorem optimize_longer_dimension_counterexample :
    (optimizeImage ⟨500, 3000⟩).1 = ⟨500, 3000⟩
    ∧ ¬ max (optimizeImage ⟨500, 3000⟩).1.width
          (optimizeImage ⟨500, 3000⟩).1.height ≤ 1024 := by
  decide

/-- **C5 as amended** (the preconditioning bounds the output *width* at
1024 px — not the longer dimension — never upscales either dimension,
returns an in-bound image unchanged, preserves the aspect ratio up to
rounding, and re-encodes at the fixed JPEG quality 75). -/
theorem optimize_width_bound_amended (d : Dimensions) :
    (optimizeImage d).1.width ≤ 1024
    ∧ (optimizeImage d).1.width ≤ d.width
    ∧ (optimizeImage d).1.height ≤ d.height
    ∧ (d.width ≤ 1024 → (optimizeImage d).1 = d)
    ∧ (optimizeImage d).2 = 75
    ∧ (optimizeImage d).1.height * d.width
        ≤ d.height * (optimizeImage d).1.width + d.width
    ∧ d.height * (optimizeImage d).1.width
        ≤ (optimizeImage d).1.height * d.width + d.width := by
  unfold optimizeImage sharpResizeWidthAuto jpegQuality
  by_cases hw : d.width ≤ 1024
  · rw [if_pos hw]
    exact ⟨hw, le_rfl, le_rfl, fun _ => rfl, rfl,
      Nat.le_add_right _ _, Nat.le_add_right _ _⟩
  · have hw' : 1025 ≤ d.width := by omega
    have hwpos : 0 < d.width := by omega
    have hmul : d.height * 1024 ≤ d.height * d.width :=
      Nat.mul_le_mul_left _ (by omega)
    have hdm : d.width * ((d.height * 1024 + d.width / 2) / d.width)
          + (d.height * 1024 + d.width / 2) % d.width
        = d.height * 1024 + d.width / 2 := Nat.div_add_mod _ _
    have hmod : (d.height * 1024 + d.width / 2) % d.width < d.width :=
      Nat.mod_lt _ hwpos
    have h3 : (d.height * 1024 + d.width / 2) / d.width ≤ d.height := by
      have hstep : d.height * 1024 + d.width / 2
          ≤ d.width / 2 + d.height * d.width := by
        rw [Nat.add_comm]
        exact Nat.add_le_add_left hmul _
      have hdiv : (d.height * 1024 + d.width / 2) / d.width
          ≤ (d.width / 2 + d.height * d.width) / d.width :=
        Nat.div_le_div_right hstep
      rw [Nat.add_mul_div_right _ _ hwpos,
        Nat.div_eq_of_lt (Nat.div_lt_self hwpos (by norm_num)), Nat.zero_add]
        at hdiv
      exact hdiv
    have h6 : (d.height * 1024 + d.width / 2) / d.width * d.width
        ≤ d.height * 1024 + d.width :=
      calc (d.height * 1024 + d.width / 2) / d.width * d.width
          ≤ d.height * 1024 + d.width / 2 := Nat.div_mul_le_self _ _
        _ ≤ d.height * 1024 + d.width :=
            Nat.add_le_add_left (Nat.div_le_self _ _) _
    have h7 : d.height * 1024
        ≤ (d.height * 1024 + d.width / 2) / d.width * d.width + d.width :=
      calc d.height * 1024
          ≤ d.height * 1024 + d.width / 2 := Nat.le_add_right _ _
        _ = d.width * ((d.height * 1024 + d.width / 2) / d.width)
              + (d.height * 1024 + d.width / 2) % d.width := hdm.symm
        _ ≤ d.width * ((d.height * 1024 + d.width / 2) / d.width) + d.width :=
            Nat.add_le_add_left (le_of_lt hmod) _
        _ = (d.height * 1024 + d.width / 2) / d.width * d.width + d.width := by
            rw [Nat.mul_comm]
    rw [if_neg hw]
    exact ⟨le_rfl, show (1024 : Nat) ≤ d.width by omega, h3,
      fun hh => absurd hh hw, rfl, h6, h7⟩

theorem optimize_width_bound_amended_witness :
    (optimizeImage ⟨2048, 1000⟩).1.width ≤ 1024
    ∧ (optimizeImage ⟨800, 600⟩).1 = ⟨800, 600⟩ :=
  ⟨(optimize_width_bound_amended ⟨2048, 1000⟩).1,
   (optimize_width_bound_amended ⟨800, 600⟩).2.2.2.1 (by decide)⟩

/-! ## Invariants of the join barrier -/

def taskOutcome : TaskState → Settled
  | .pending _ o => o
  | .settled o => o

/-- Machine invariant: each task carries its own predetermined outcome
(no interference from the sibling), and the join is populated only when
both tasks have settled, with exactly their outcomes. -/
def DualInv (o1 o2 : Settled) (s : AllSettledState) : Prop :=
  taskOutcome s.tess = o1 ∧ taskOutcome s.vis = o2
  ∧ (s.joined = none ∨
      (s.joined = some (o1, o2) ∧ s.tess = .settled o1 ∧ s.vis = .settled o2))

theorem dualInv_init (n1 n2 : Nat) (o1 o2 : Settled) :
    DualInv o1 o2 (allSettledInit n1 n2 o1 o2) :=
  ⟨rfl, rfl, Or.inl rfl⟩

theorem dualInv_step (o1 o2 : Settled) (s s' : AllSettledState)
    (h : DualStep s s') (hs : DualInv o1 o2 s) : DualInv o1 o2 s' := by
  cases h with
  | workTess n o v j =>
    refine ⟨hs.1, hs.2.1, ?_⟩
    rcases hs.2.2 with hj | ⟨_, ht, _⟩
    · exact Or.inl hj
    · exact absurd ht (by simp)
  | settleTess o v j =>
    refine ⟨hs.1, hs.2.1, ?_⟩
    rcases hs.2.2 with hj | ⟨_, ht, _⟩
    · exact Or.inl hj
    · exact absurd ht (by simp)
  | workVis t n o j =>
    refine ⟨hs.1, hs.2.1, ?_⟩
    rcases hs.2.2 with hj | ⟨_, _, hv⟩
    · exact Or.inl hj
    · exact absurd hv (by simp)
  | settleVis t o j =>
    refine ⟨hs.1, hs.2.1, ?_⟩
    rcases hs.2.2 with hj | ⟨_, _, hv⟩
    · exact Or.inl hj
    · exact absurd hv (by simp)
  | join a b =>
    have ha : a = o1 := hs.1
    have hb : b = o2 := hs.2.1
    subst ha; subst hb
    exact ⟨hs.1, hs.2.1, Or.inr ⟨rfl, rfl, rfl⟩⟩

theorem dualInv_reach (n1 n2 : Nat) (o1 o2 : Settled) (s : AllSettledState)
    (h : DualReach (allSettledInit n1 n2 o1 o2) s) : DualInv o1 o2 s := by
  induction h with
  | refl => exact dualInv_init n1 n2 o1 o2
  | tail _ hstep ih => exact dualInv_step o1 o2 _ _ hstep ih

theorem reach_settle_tess (n : Nat) (o : Settled) (v : TaskState)
    (j : Option (Settled × Settled)) :
    DualReach ⟨.pending n o, v, j⟩ ⟨.settled o, v, j⟩ := by
  induction n with
  | zero => exact Relation.ReflTransGen.single (DualStep.settleTess o v j)
  | succ k ih => exact Relation.ReflTransGen.head (DualStep.workTess k o v j) ih

theorem reach_settle_vis (n : Nat) (o : Settled) (t : TaskState)
    (j : Option (Settled × Settled)) :
    DualReach ⟨t, .pending n o, j⟩ ⟨t, .settled o, j⟩ := by
  induction n with
  | zero => exact Relation.ReflTransGen.single (DualStep.settleVis t o j)
  | succ k ih => exact Relation.ReflTransGen.head (DualStep.workVis t k o j) ih

/-- **C6** (confirmed).  The `Promise.allSettled` barrier of the
dual-parallel strategy, as a small-step machine: (i) in every reachable
state, the continuation has been resumed (`joined` populated) only with
both branch outcomes and only after both branches settled — never on the
first branch to finish; (ii)–(iv) every step touches exactly one component:
a step that changes one branch leaves the sibling and the join untouched
(no cancellation, no shared state); (v) from the initial state the machine
always reaches the join of both predetermined outcomes — in particular a
rejected branch still lets the sibling settle and the join collect both
outcomes. -/
theorem allSettled_join_barrier (n1 n2 : Nat) (o1 o2 : Settled) :
    (∀ s, DualReach (allSettledInit n1 n2 o1 o2) s →
        ∀ a b, s.joined = some (a, b) →
          a = o1 ∧ b = o2 ∧ s.tess = .settled o1 ∧ s.vis = .settled o2)
    ∧ (∀ s s', DualStep s s' → s'.tess ≠ s.tess →
        s'.vis = s.vis ∧ s'.joined = s.joined)
    ∧ (∀ s s', DualStep s s' → s'.vis ≠ s.vis →
        s'.tess = s.tess ∧ s'.joined = s.joined)
    ∧ (∀ s s', DualStep s s' → s'.joined ≠ s.joined →
        s'.tess = s.tess ∧ s'.vis = s.vis)
    ∧ DualReach (allSettledInit n1 n2 o1 o2)
        ⟨.settled o1, .settled o2, some (o1, o2)⟩ := by
  refine ⟨?_, ?_, ?_, ?_, ?_⟩
  · intro s hreach a b hj
    have hinv := dualInv_reach n1 n2 o1 o2 s hreach
    rcases hinv.2.2 with hnone | ⟨hsome, ht, hv⟩
    · rw [hnone] at hj; exact absurd hj (by simp)
    · rw [hsome] at hj
      have hab : (o1, o2) = (a, b) := by
        exact Option.some.inj hj
      exact ⟨(Prod.mk.injEq _ _ _ _ ▸ hab).1.symm,
        (Prod.mk.injEq _ _ _ _ ▸ hab).2.symm, ht, hv⟩
  · intro s s' h hne
    cases h with
    | workTess n o v j => exact ⟨rfl, rfl⟩
    | settleTess o v j => exact ⟨rfl, rfl⟩
    | workVis t n o j => exact absurd rfl hne
    | settleVis t o j => exact absurd rfl hne
    | join a b => exact absurd rfl hne
  · intro s s' h hne
    cases h with
    | workTess n o v j => exact absurd rfl hne
    | settleTess o v j => exact absurd rfl hne
    | workVis t n o j => exact ⟨rfl, rfl⟩
    | settleVis t o j => exact ⟨rfl, rfl⟩
    | join a b => exact absurd rfl hne
  · intro s s' h hne
    cases h with
    | workTess n o v j => exact absurd rfl hne
    | settleTess o v j => exact absurd rfl hne
    | workVis t n o j => exact absurd rfl hne
    | settleVis t o j => exact absurd rfl hne
    | join a b => exact ⟨rfl, rfl⟩
  · have r1 : DualReach (allSettledInit n1 n2 o1 o2)
        ⟨.settled o1, .pending n2 o2, none⟩ :=
      reach_settle_tess n1 o1 (.pending n2 o2) none
    have r2 : DualReach (⟨.settled o1, .pending n2 o2, none⟩ : AllSettledState)
        ⟨.settled o1, .settled o2, none⟩ :=
      reach_settle_vis n2 o2 (.settled o1) none
    exact (r1.trans r2).trans
      (Relation.ReflTransGen.single (DualStep.join o1 o2))

theorem allSettled_join_barrier_witness :
    DualReach (allSettledInit 2 3 (.fulfilled "INVOICE") (.rejected "timeout"))
      ⟨.settled (.fulfilled "INVOICE"), .settled (.rejected "timeout"),
        some (.fulfilled "INVOICE", .rejected "timeout")⟩
    ∧ (⟨.settled (.fulfilled "INVOICE"), .settled (.rejected "timeout"),
        some (.fulfilled "INVOICE", .rejected "timeout")⟩
          : AllSettledState).tess = .settled (.fulfilled "INVOICE") := by
  have h := allSettled_join_barrier 2 3 (.fulfilled "INVOICE") (.rejected "timeout")
  exact ⟨h.2.2.2.2, (h.1 _ h.2.2.2.2 _ _ rfl).2.2.1⟩

/-- **C7** (confirmed).  Every dual-parallel run that reaches the analysis
step sends the text model exactly one prompt, consisting of the caller
instruction (or its default), then the fixed context block — which states
that the content comes from two OCR passes over the same document and that
discrepancies go to the better-structured output — and finally the combined
text appended at the end. -/
theorem dual_contextual_prompt_structure (tess vis : Settled)
    (p : Option String) (llm : String → Option String)
    (h : (analyzeImageDual tess vis p llm).llmPrompts ≠ []) :
    (analyzeImageDual tess vis p llm).llmPrompts
      = [finalPrompt p ++ dualContextBlock ++
          combineOCRResults (extractText tess) (extractText vis)]
    ∧ containsSubstr dualContextBlock "TWO different OCR methods" = true
    ∧ containsSubstr dualContextBlock "the SAME document" = true
    ∧ containsSubstr dualContextBlock
        "prefer the cleaner, more structured output" = true := by
  refine ⟨?_, by set_option maxRecDepth 8000 in decide,
    by set_option maxRecDepth 8000 in decide,
    by set_option maxRecDepth 8000 in decide⟩
  by_cases hc : combineOCRResults (extractText tess) (extractText vis) = ""
  · exact absurd (show (analyzeImageDual tess vis p llm).llmPrompts = [] by
      unfold analyzeImageDual; rw [if_pos hc]) h
  · exact analyzeImageDual_llmPrompts tess vis p llm hc

theorem dual_contextual_prompt_structure_witness :
    (analyzeImageDual (.fulfilled "abc") (.rejected "engine crash") none
        (fun _ => some "ok")).llmPrompts
      = [finalPrompt none ++ dualContextBlock ++
          combineOCRResults (extractText (.fulfilled "abc"))
            (extractText (.rejected "engine crash"))]
    ∧ containsSubstr dualContextBlock "TWO different OCR methods" = true := by
  have h := dual_contextual_prompt_structure (.fulfilled "abc")
    (.rejected "engine crash") none (fun _ => some "ok")
    (by set_option maxRecDepth 8000 in decide)
  exact ⟨h.1, h.2.1⟩

/-- Two strings differ when a fixed character pattern starts one but not
the other. -/
theorem ne_of_discriminator {s t : String} (pat : List Char)
    (hs : isPrefixPat pat s.data = true) (ht : isPrefixPat pat t.data = false) :
    s ≠ t := by
  intro h
  rw [h, ht] at hs
  exact Bool.noConfusion hs

/-- **C8** (confirmed).  A vision-model call that exceeds its configured
timeout surfaces as the axios `ECONNABORTED` signal; both the vision
adapter and the dual orchestrator classify it as the dedicated timeout
failure, which is distinct from the model-not-found failure produced for a
404 backend reply (for every model identifier) and from the generic
backend-error wrap (for every underlying message). -/
theorem vision_timeout_classification (m : String) (e : AxiosErrorInfo)
    (h : e.isAxiosErr = true ∧ e.code = some "ECONNABORTED") :
    visionCatchError m e = visionTimeoutMessage
    ∧ dualCatchError e = dualTimeoutMessage
    ∧ (∀ m2, visionTimeoutMessage ≠ visionModelNotFoundMessage m2)
    ∧ (∀ msg, visionTimeoutMessage ≠ visionBackendErrorMessage msg)
    ∧ dualTimeoutMessage ≠ dualModelNotFoundMessage
    ∧ (∀ msg, dualTimeoutMessage ≠ dualGenericMessage msg) := by
  refine ⟨?_, ?_, ?_, ?_, by decide, ?_⟩
  · simp [visionCatchError, h.1, h.2]
  · simp [dualCatchError, h.1, h.2]
  · intro m2
    exact ne_of_discriminator ("Vision model r").data (by decide) rfl
  · intro msg
    exact ne_of_discriminator ("Vision model r").data (by decide) rfl
  · intro msg
    exact ne_of_discriminator ("D").data (by decide) rfl

theorem vision_timeout_classification_witness :
    visionCatchError "gemma3:4b"
        ⟨true, some "ECONNABORTED", none, "timeout of 80000ms exceeded"⟩
      = visionTimeoutMessage
    ∧ visionTimeoutMessage ≠ visionModelNotFoundMessage "gemma3:4b" := by
  have h := vision_timeout_classification "gemma3:4b"
    ⟨true, some "ECONNABORTED", none, "timeout of 80000ms exceeded"⟩ ⟨rfl, rfl⟩
  exact ⟨h.1, h.2.2.1 "gemma3:4b"⟩

/-- **C9** (confirmed).  The PDF rasterization step removes its scratch
directory on every exit path: whatever the oracle outcomes (rasterizer
failure, OCR engine failure, empty text, success), `extractTextFromPDF`
returns the filesystem to its prior state and the scratch directory is
gone; likewise the dual-OCR controller removes the directory it created on
its PDF path on success, rasterization failure, and downstream dual-OCR
failure alike (its other paths create none). -/
theorem rasterization_scratch_dir_removed (o : PDFOracles) (dirId : Nat)
    (fs : List Nat) (h : dirId ∉ fs) :
    (extractTextFromPDF o dirId fs).2 = fs
    ∧ dirId ∉ (extractTextFromPDF o dirId fs).2
    ∧ (∀ kind raster tess vis p llm,
        (analyzeDocumentVL kind raster tess vis p llm dirId fs).2 = fs) := by
  have he : (extractTextFromPDF o dirId fs).2 = fs := by
    unfold extractTextFromPDF
    simp [List.erase_cons_head]
  refine ⟨he, by rw [he]; exact h, ?_⟩
  intro kind raster tess vis p llm
  cases kind with
  | missing => rfl
  | unsupported => rfl
  | image =>
    simp only [analyzeDocumentVL]
    split <;> rfl
  | pdf =>
    simp only [analyzeDocumentVL]
    simp [List.erase_cons_head]

theorem rasterization_scratch_dir_removed_witness :
    (extractTextFromPDF ⟨.ok (), .ok " some text "⟩ 7 [1, 2]).2 = [1, 2]
    ∧ (analyzeDocumentVL .pdf (.error "pdftocairo exited non-zero")
        (.rejected "x") (.rejected "y") none (fun _ => none) 7 [1, 2]).2
      = [1, 2] := by
  have h := rasterization_scratch_dir_removed ⟨.ok (), .ok " some text "⟩ 7 [1, 2]
    (by decide)
  exact ⟨h.1, h.2.2 .pdf (.error "pdftocairo exited non-zero") (.rejected "x")
    (.rejected "y") none (fun _ => none)⟩

/-- **C10** (confirmed).  Every successful result of the PDF OCR
extraction, of the text-model analysis, and of the dual-OCR orchestration
carries a non-empty string that equals its own trim. -/
theorem success_results_trimmed_nonempty :
    (∀ o dirId fs r, (extractTextFromPDF o dirId fs).1 = .ok r →
        r ≠ "" ∧ jsTrim r = r)
    ∧ (∀ text prompt llm r, analyzeText text prompt llm = .ok r →
        r ≠ "" ∧ jsTrim r = r)
    ∧ (∀ tess vis p llm r, (analyzeImageDual tess vis p llm).result = .ok r →
        r ≠ "" ∧ jsTrim r = r) := by
  refine ⟨?_, ?_, ?_⟩
  · intro o dirId fs r hr
    replace hr : extractPDFBody o = .ok r := hr
    rcases o with ⟨raster, ocr⟩
    cases raster with
    | error e => simp [extractPDFBody] at hr
    | ok u =>
      cases ocr with
      | error e => simp [extractPDFBody] at hr
      | ok text =>
        simp only [extractPDFBody] at hr
        by_cases hg : text = "" ∨ jsTrim text = ""
        · rw [if_pos hg] at hr
          exact absurd hr (by simp)
        · rw [if_neg hg] at hr
          have hr' : jsTrim text = r := Except.ok.inj hr
          push_neg at hg
          subst hr'
          exact ⟨hg.2, jsTrim_idem text⟩
  · intro text prompt llm r hr
    simp only [analyzeText] at hr
    cases hllm : llm (prompt ++ "\n\n" ++ text) with
    | none =>
      rw [hllm] at hr
      simp at hr
    | some x =>
      rw [hllm] at hr
      by_cases hx : jsTrim x = ""
      · simp [hx] at hr
      · simp only [hx, if_false, ite_false, if_neg, Except.ok.injEq] at hr
        have hr' : jsTrim x = r := by simpa [hx] using hr
        subst hr'
        exact ⟨hx, jsTrim_idem x⟩
  · intro tess vis p llm r hr
    simp only [analyzeImageDual] at hr
    by_cases hc : combineOCRResults (extractText tess) (extractText vis) = ""
    · rw [if_pos hc] at hr
      exact absurd hr (by simp)
    · rw [if_neg hc] at hr
      cases hllm : llm (buildContextualPrompt p
          (combineOCRResults (extractText tess) (extractText vis))) with
      | none =>
        rw [hllm] at hr
        simp at hr
      | some x =>
        rw [hllm] at hr
        by_cases hx : jsTrim x = ""
        · simp [hx] at hr
        · simp [hx] at hr
          exact hr ▸ ⟨hx, jsTrim_idem x⟩

theorem success_results_trimmed_nonempty_witness :
    ("summary" ≠ "" ∧ jsTrim "summary" = "summary")
    ∧ ("INVOICE" ≠ "" ∧ jsTrim "INVOICE" = "INVOICE")
    ∧ ("ok" ≠ "" ∧ jsTrim "ok" = "ok") :=
  ⟨success_results_trimmed_nonempty.2.1 "doc" "prompt"
      (fun _ => some " summary ") "summary" rfl,
   success_results_trimmed_nonempty.1 ⟨.ok (), .ok " INVOICE "⟩ 0 [] "INVOICE" rfl,
   success_results_trimmed_nonempty.2.2 (.fulfilled "text") (.rejected "r") none
      (fun _ => some "ok") "ok" rfl⟩

end DocIntel
